import Mathlib

/-!
Verification of the jiraiya story-generation service.

The Python sources under `src/` are embedded shallowly: Python strings become
`List Char`, the pydantic request model becomes an explicit validation
pipeline, the tenacity retry decorator becomes a bounded retry loop over an
oracle of per-attempt backend outcomes, and the FastAPI error handlers become
pure functions from domain errors to response records.
-/

set_option autoImplicit false

namespace Jiraiya

/-- Character-list view of a Python `str`, built from a Lean string literal. -/
def str (s : String) : List Char := s.data

/-- The whitespace characters recognized by Python's `str.strip()`
(ASCII subset: space, tab, newline, carriage return, vertical tab, form feed). -/
def isSpace (c : Char) : Bool :=
  c = ' ' || c = '\t' || c = '\n' || c = '\r' || c = Char.ofNat 11 || c = Char.ofNat 12

/-- Python `s.lstrip()`: drop the maximal whitespace prefix. -/
def lstrip (s : List Char) : List Char := s.dropWhile isSpace

/-- Python `s.rstrip()`: drop the maximal whitespace suffix. -/
def rstrip (s : List Char) : List Char := (s.reverse.dropWhile isSpace).reverse

/-- Python `s.strip()`: the two maximal-whitespace removals at either end are
independent of each other, so stripping the suffix first models it. -/
def strip (s : List Char) : List Char := lstrip (rstrip s)

/-- Python `s.lower()` (ASCII). -/
def pyLower (s : List Char) : List Char := s.map Char.toLower

/-- Python `s.capitalize()` (ASCII): first character upper-cased, the rest
lower-cased. -/
def capitalize : List Char → List Char
  | [] => []
  | c :: rest => c.toUpper :: rest.map Char.toLower

/-- Error classes a pydantic field can produce: a built-in `Field` constraint
violation, or a `ValueError` raised inside a `@field_validator`. -/
inductive FieldError
  | constraint
  | valueError
deriving DecidableEq

instance {ε α : Type} [DecidableEq ε] [DecidableEq α] : DecidableEq (Except ε α) := fun a b =>
  match a, b with
  | .ok x, .ok y => if h : x = y then .isTrue (by rw [h]) else .isFalse (by simp [h])
  | .error x, .error y => if h : x = y then .isTrue (by rw [h]) else .isFalse (by simp [h])
  | .ok _, .error _ => .isFalse (by simp)
  | .error _, .ok _ => .isFalse (by simp)

/-- The trimmed, de-duplicated keyword list computed inside `validate_keywords`
(`src/schemas/story.py`): `list(set(k.strip() for k in v if k.strip()))`.
Python's `set` has unspecified iteration order; the embedding de-duplicates
keeping one representative of each element. -/
def normalizeKeywords (v : List (List Char)) : List (List Char) :=
  ((v.map strip).filter (fun k => k ≠ [])).dedup

/-- Embedding of `validate_keywords` (`src/schemas/story.py`): normalize, then raise
`ValueError("At least one non-empty keyword is required")` when the result
is empty. -/
def validate_keywords (v : List (List Char)) : Except FieldError (List (List Char)) :=
  let keywords := normalizeKeywords v
  if keywords = [] then .error .valueError else .ok keywords

/-- The full pydantic pipeline for the `keywords` field: the declared
`Field(min_length=1, max_length=10)` list-length constraints are checked on the
raw value before the (mode `after`) `validate_keywords` validator runs. -/
def keywordsField (raw : List (List Char)) : Except FieldError (List (List Char)) :=
  if raw.length < 1 ∨ raw.length > 10 then .error .constraint
  else validate_keywords raw

/-- The pydantic pipeline for `genre`: `Field(min_length=3, max_length=50)`
character-length constraints, no custom validator. -/
def genreField (g : List Char) : Except FieldError (List Char) :=
  if g.length < 3 ∨ g.length > 50 then .error .constraint
  else .ok g

/-- The tone allow-list from `validate_tone` (`src/schemas/story.py`). -/
def validTones : List (List Char) :=
  [str ("neutral"), str ("humorous"), str ("dark"), str ("epic"),
   str ("romantic"), str ("mysterious"), str ("dramatic")]

/-- Result of validating the `tone` field. `validate_tone` calls `v.lower()`
unconditionally; pydantic converts a `ValueError` raised in a validator into a
validation failure, but any other exception (here: `AttributeError`, from
calling `.lower()` on `None`) propagates out of model validation unwrapped. -/
inductive ToneResult
  | ok (t : List Char)
  | valueError
  | attributeError
deriving DecidableEq

/-- Embedding of `validate_tone` (`src/schemas/story.py`) applied to the already
type-checked field value: `None` (the field is `Optional[str]`, so an explicit
null passes the type check) reaches `v.lower()` and raises `AttributeError`;
otherwise the lower-cased value is checked against the allow-list. -/
def validate_tone : Option (List Char) → ToneResult
  | none => .attributeError
  | some v => if pyLower v ∈ validTones then .ok (pyLower v) else .valueError

/-- The pydantic pipeline for `tone`. The outer `Option` distinguishes an
absent field (pydantic applies the default `"neutral"` without running the
validator, since `validate_default` is not set) from a supplied value, and the
inner `Option` distinguishes an explicit null from a string. -/
def toneField : Option (Option (List Char)) → ToneResult
  | none => .ok (str ("neutral"))
  | some v => validate_tone v

/-- The pydantic pipeline for `max_length`: default `500` when absent,
`Field(ge=100, le=2000)` constraints when supplied. -/
def maxLengthField : Option Int → Except FieldError Int
  | none => .ok 500
  | some v => if 100 ≤ v ∧ v ≤ 2000 then .ok v else .error .constraint

/-- Embedding of `validate_length_range` (`src/schemas/story.py`):
`if v and "max_length" in info.data and v > info.data["max_length"]` raise
`ValueError`. `info.data` holds `max_length` only when that earlier field
validated successfully; `if v` is Python truthiness (`None` and `0` falsy). -/
def validate_length_range (maxResult : Except FieldError Int) :
    Option Int → Except FieldError (Option Int)
  | none => .ok none
  | some v =>
    match maxResult with
    | .ok m => if v ≠ 0 ∧ m < v then .error .valueError else .ok (some v)
    | .error _ => .ok (some v)

/-- The pydantic pipeline for `min_length`: default `None` when absent,
`Field(ge=50, le=1000)` constraints, then the `validate_length_range`
validator. -/
def minLengthField (maxResult : Except FieldError Int) :
    Option Int → Except FieldError (Option Int)
  | none => .ok none
  | some v =>
    if v < 50 ∨ 1000 < v then .error .constraint
    else validate_length_range maxResult (some v)

/-- A validated `StoryGenerationRequest` (`src/schemas/story.py`). -/
structure StoryRequest where
  keywords : List (List Char)
  genre : List Char
  tone : List Char
  max_length : Int
  min_length : Option Int
deriving DecidableEq

/-- The raw inbound payload, already type-checked: for `tone`, the outer
`Option` marks field presence and the inner one an explicit null; for the
length fields, `none` marks an absent field. -/
structure RawRequest where
  keywords : List (List Char)
  genre : List Char
  tone : Option (Option (List Char))
  max_length : Option Int
  min_length : Option Int

/-- Overall outcome of pydantic model validation: a validated request, a
`ValidationError` collecting per-field errors, or an `AttributeError` escaping
from `validate_tone`. -/
inductive ValidationOutcome
  | ok (req : StoryRequest)
  | validationError
  | attributeError
deriving DecidableEq

/-- Validation of a `StoryGenerationRequest` payload. Fields are processed in
declaration order; field errors (`constraint` or `ValueError`) are collected
into a single `ValidationError`, while the `AttributeError` raised by
`validate_tone` on an explicit null aborts validation immediately and
propagates. -/
def validateRequest (raw : RawRequest) : ValidationOutcome :=
  let kw := keywordsField raw.keywords
  let g := genreField raw.genre
  match toneField raw.tone with
  | .attributeError => .attributeError
  | .valueError => .validationError
  | .ok t =>
    let mx := maxLengthField raw.max_length
    match kw, g, mx with
    | .ok k, .ok gv, .ok m =>
      match minLengthField (.ok m) raw.min_length with
      | .ok mn => .ok ⟨k, gv, t, m, mn⟩
      | .error _ => .validationError
    | _, _, _ => .validationError

/-- A generated `StoryGenerationResponse` (`src/schemas/story.py`); its
fields carry no constraints beyond their types. -/
structure StoryResponse where
  title : List Char
  content : List Char
  keywords_used : List (List Char)
deriving DecidableEq

/-- Python single-split on the first newline, as in
`full_response.strip().split` with a maxsplit of 1: `none` when the text holds
no newline (a one-element split), `some (before, after)` when it does. -/
def splitFirstNewline : List Char → Option (List Char × List Char)
  | [] => none
  | c :: rest =>
    if c = '\n' then some ([], rest)
    else
      match splitFirstNewline rest with
      | none => none
      | some (a, b) => some (c :: a, b)

/-- Python `s.replace("Title:", "")`: remove every (left-to-right,
non-overlapping) occurrence of the six-character marker, scanning the rest of
the original text after each removal. -/
def removeTitleMarker : List Char → List Char
  | 'T' :: 'i' :: 't' :: 'l' :: 'e' :: ':' :: rest => removeTitleMarker rest
  | c :: rest => c :: removeTitleMarker rest
  | [] => []

/-- Python `s.replace("title:", "")`. -/
def removeLowerTitleMarker : List Char → List Char
  | 't' :: 'i' :: 't' :: 'l' :: 'e' :: ':' :: rest => removeLowerTitleMarker rest
  | c :: rest => c :: removeLowerTitleMarker rest
  | [] => []

/-- The response-parsing block of `_generate_with_ai`
(`src/services/story_generator.py`): strip the full response, split once on the
first newline; on a two-part split the title is the first part stripped, with
all `"Title:"` then all `"title:"` occurrences removed, stripped again, and the
content is the second part stripped; otherwise the title is `"Untitled Story"`
and the content is the unmodified full response. -/
def parseResponse (full : List Char) : List Char × List Char :=
  match splitFirstNewline (strip full) with
  | some (l0, l1) =>
    (strip (removeLowerTitleMarker (removeTitleMarker (strip l0))), strip l1)
  | none => (str ("Untitled Story"), full)

/-- The exceptions the AI call can raise, as discriminated by the `except`
clauses of `_generate_with_ai`: the two transient categories
(`openai.RateLimitError`, `openai.APIError`) and everything else, carried with
its type name and message. -/
inductive UpstreamExc
  | rateLimit (msg : List Char)
  | apiError (msg : List Char)
  | other (name msg : List Char)
deriving DecidableEq

/-- Whether the exception matches `retry_if_exception_type((RateLimitError,
APIError))`, i.e. the first `except` clause. -/
def UpstreamExc.isTransient : UpstreamExc → Bool
  | .rateLimit _ => true
  | .apiError _ => true
  | .other _ _ => false

/-- Python `type(e).__name__`. -/
def excName : UpstreamExc → List Char
  | .rateLimit _ => str ("RateLimitError")
  | .apiError _ => str ("APIError")
  | .other n _ => n

/-- Python `str(e)`. -/
def excMsg : UpstreamExc → List Char
  | .rateLimit m => m
  | .apiError m => m
  | .other _ m => m

/-- Outcome of one invocation of the AI chain (`chain.ainvoke`): the raw
generated text, or an exception. -/
inductive CallOutcome
  | success (raw : List Char)
  | fail (e : UpstreamExc)

/-- Result of one execution of the body of `_generate_with_ai`: a parsed
response, a re-raised transient exception (`# Let retry handle these`), or a
`StoryGenerationError(message, detail)` wrapping any other exception. -/
inductive AttemptResult
  | ok (resp : StoryResponse)
  | transient (e : UpstreamExc)
  | generationError (msg detail : List Char)
deriving DecidableEq

/-- One execution of the `try` body of `_generate_with_ai` given the outcome of
the underlying chain invocation. On success the parsed title and content are
returned together with the request's normalized keywords; a transient exception
is re-raised unchanged; any other exception `e` becomes
`StoryGenerationError("Failed to generate story: " + str(e),
detail=type(e).__name__)`. -/
def generateWithAiBody (req : StoryRequest) (outcome : CallOutcome) : AttemptResult :=
  match outcome with
  | .success raw =>
    let p := parseResponse raw
    .ok ⟨p.1, p.2, req.keywords⟩
  | .fail e =>
    if e.isTransient then .transient e
    else .generationError (str ("Failed to generate story: ") ++ excMsg e) (excName e)

/-- What finally escapes the tenacity-wrapped `_generate_with_ai`: a response,
a `StoryGenerationError`, or — after `stop_after_attempt(3)` exhausts on
transient failures, with `reraise` left at its default `False` — a
`tenacity.RetryError` wrapping the last transient failure. -/
inductive FinalResult
  | ok (resp : StoryResponse)
  | generationError (msg detail : List Char)
  | retryError (last : UpstreamExc)
deriving DecidableEq

/-- Whether the escaping exception is the `StoryGenerationError` domain error. -/
def FinalResult.isGenerationError : FinalResult → Bool
  | .generationError _ _ => true
  | _ => false

/-- The tenacity retry loop around `_generate_with_ai`: `attempt` is the
1-based attempt number, `remaining` the number of further attempts
`stop_after_attempt(3)` still allows, and `o` gives the backend outcome of each
invocation. A non-transient result ends the loop at once; a transient failure
is retried while attempts remain and otherwise raises `RetryError` carrying the
last failure. Returns the number of invocations performed with the final
result. -/
def retryLoop (req : StoryRequest) (o : Nat → CallOutcome) :
    Nat → Nat → Nat × FinalResult
  | attempt, remaining =>
    match generateWithAiBody req (o attempt) with
    | .ok r => (attempt, .ok r)
    | .generationError m d => (attempt, .generationError m d)
    | .transient e =>
      match remaining with
      | 0 => (attempt, .retryError e)
      | r + 1 => retryLoop req o (attempt + 1) r

/-- Embedding of `_generate_with_ai` as seen by its caller: the retry loop started at
attempt 1 with 2 retries remaining (`stop_after_attempt(3)`). -/
def generateWithAi (req : StoryRequest) (o : Nat → CallOutcome) : Nat × FinalResult :=
  retryLoop req o 1 2

/-- Embedding of `_generate_mock` (`src/services/story_generator.py`): `random.choice`
between the two title templates is modelled by the boolean `pick`;
`request.keywords[0]` is modelled with `headD` (the subscript raises on an
empty list, which validation rules out). -/
def generateMock (req : StoryRequest) (pick : Bool) : StoryResponse :=
  let kw0 := req.keywords.headD []
  { title :=
      if pick then str ("The Tale of the ") ++ capitalize req.genre
      else str ("Journey to the ") ++ capitalize kw0
    content :=
      str ("Once upon a time in a ") ++ req.genre ++ str (" world, there was a ") ++ kw0 ++
      str (". It was a ") ++ req.tone ++ str (" day. The ") ++ kw0 ++
      str (" decided to go on an adventure. Min length requested was ") ++
      (match req.min_length with
       | none => str ("None")
       | some n => (toString n).data) ++
      str (". And they lived happily ever after.")
    keywords_used := req.keywords }

/-- Embedding of `generate_story` (`src/services/story_generator.py`): delegate to the
retry-wrapped AI path when an OpenAI key configured an LLM at construction,
otherwise to the mock generator (which performs no retries and no network
calls: 0 AI invocations). -/
def generate_story (llmConfigured : Bool) (o : Nat → CallOutcome) (pick : Bool)
    (req : StoryRequest) : Nat × FinalResult :=
  if llmConfigured then generateWithAi req o
  else (0, .ok (generateMock req pick))

/-- The HTTP status the route handler `generate_story` in
`src/api/v1/router.py` ultimately produces for each escaping result: a
`StoryGenerationError` is a `JiraiyaException`, re-raised into the registered
`story_generation_exception_handler` (503); any other exception — in
particular `tenacity.RetryError` — hits the generic
`HTTPException(status_code=500, detail="Internal server error")` branch. -/
def routeStatus : FinalResult → Nat
  | .ok _ => 200
  | .generationError _ _ => 503
  | .retryError _ => 500

/-- The RFC-7807-style JSON body produced by the error handlers in
`src/api/errors.py` (`instance` is a Python keyword-free rename of the
`"instance"` payload field). -/
structure ProblemResponse where
  ptype : List Char
  title : List Char
  status : Nat
  detail : List Char
  instancePath : List Char
deriving DecidableEq

/-- The structured log record emitted by
`logger.error("story_generation_error", error=str(exc), detail=exc.detail)`. -/
structure LogRecord where
  event : List Char
  error : List Char
  detail : List Char
deriving DecidableEq

/-- Embedding of `story_generation_exception_handler` (`src/api/errors.py`) applied to a
`StoryGenerationError` with message `msg` and diagnostic label `detailLabel`:
it logs the error and returns the 503 payload, whose `detail` field is
`str(exc)` — the error message — and which carries `detailLabel` nowhere. -/
def story_generation_exception_handler (msg detailLabel path : List Char) :
    ProblemResponse × LogRecord :=
  ({ ptype := str ("driver:error")
     title := str ("Story Generation Failed")
     status := 503
     detail := msg
     instancePath := path },
   { event := str ("story_generation_error")
     error := msg
     detail := detailLabel })

/-- A concrete valid inbound payload, used by witnesses. -/
def rawReq0 : RawRequest :=
  ⟨[str ("ninja")], str ("fantasy"), some (some (str ("HUMOROUS"))), some 500, some 100⟩

/-- The validated request that `rawReq0` produces. -/
def req0 : StoryRequest :=
  ⟨[str ("ninja")], str ("fantasy"), str ("humorous"), 500, some 100⟩

/-- Backend raising `RateLimitError` on the first two invocations and
succeeding on the third. -/
def oracleTwoFailThenOk : Nat → CallOutcome := fun n =>
  if n ≤ 2 then .fail (.rateLimit (str ("429 rate limited")))
  else .success (str ("Title: T\nBody"))

/-- Backend raising `RateLimitError` on every invocation. -/
def oracleAllRateLimit : Nat → CallOutcome := fun _ =>
  .fail (.rateLimit (str ("429 rate limited")))

/-- Backend raising `RateLimitError` on the first three invocations and
succeeding from the fourth on. -/
def oracleOkFromFourth : Nat → CallOutcome := fun n =>
  if n ≤ 3 then .fail (.rateLimit (str ("429 rate limited")))
  else .success (str ("late"))

/-- Backend raising `APIError` on every invocation. -/
def oracleAllApiError : Nat → CallOutcome := fun _ =>
  .fail (.apiError (str ("upstream 500")))

lemma head_dropWhile (p : Char → Bool) (l : List Char) : ∀ {c : Char} {t : List Char},
    l.dropWhile p = c :: t → p c = false := by
  induction l with
  | nil => intro c t h; simp [List.dropWhile] at h
  | cons a l ih =>
    intro c t h
    cases hpa : p a with
    | false =>
      rw [List.dropWhile_cons, hpa] at h
      simp at h
      obtain ⟨rfl, -⟩ := h
      exact hpa
    | true =>
      rw [List.dropWhile_cons, hpa] at h
      simp at h
      exact ih h

lemma dropWhile_isSuffix (p : Char → Bool) (l : List Char) : l.dropWhile p <:+ l := by
  induction l with
  | nil => exact List.suffix_refl _
  | cons a l ih =>
    cases hpa : p a with
    | false => rw [List.dropWhile_cons, hpa]; simp
    | true =>
      rw [List.dropWhile_cons, hpa]
      simp only [if_true]
      exact ih.trans (List.suffix_cons a l)

lemma strip_head {s : List Char} {c : Char} {t : List Char} (h : strip s = c :: t) :
    isSpace c = false :=
  head_dropWhile isSpace (rstrip s) h

lemma strip_last {s : List Char} {a : List Char} {c : Char} (h : strip s = a ++ [c]) :
    isSpace c = false := by
  obtain ⟨pre, hpre⟩ := dropWhile_isSuffix isSpace (rstrip s)
  have h2 : s.reverse.dropWhile isSpace = c :: (a.reverse ++ pre.reverse) := by
    have hrev : (rstrip s).reverse = s.reverse.dropWhile isSpace := by
      simp [rstrip]
    rw [← hrev, ← hpre]
    show (pre ++ strip s).reverse = _
    rw [h]
    simp
  exact head_dropWhile isSpace s.reverse h2

lemma strip_ne_nil {l : List Char} {c : Char} (hc : c ∈ l) (hs : isSpace c = false) :
    strip l ≠ [] := by
  intro hnil
  have hall : ∀ x ∈ rstrip l, isSpace x := by
    have : (rstrip l).dropWhile isSpace = [] := hnil
    exact List.dropWhile_eq_nil_iff.mp this
  have hd : l.reverse.dropWhile isSpace ≠ [] := by
    intro h0
    have hmemall := List.dropWhile_eq_nil_iff.mp h0 c (List.mem_reverse.mpr hc)
    rw [hs] at hmemall
    exact Bool.noConfusion hmemall
  obtain ⟨h1, t1, hd1⟩ := List.exists_cons_of_ne_nil hd
  have hh : isSpace h1 = false := head_dropWhile isSpace l.reverse hd1
  have hmem : h1 ∈ rstrip l := by
    simp [rstrip, hd1]
  have := hall h1 hmem
  rw [hh] at this
  exact Bool.noConfusion this

lemma splitFirstNewline_eq : ∀ (s a b : List Char),
    splitFirstNewline s = some (a, b) → s = a ++ '\n' :: b := by
  intro s
  induction s with
  | nil => intro a b h; simp [splitFirstNewline] at h
  | cons c rest ih =>
    intro a b h
    by_cases hc : c = '\n'
    · subst hc
      simp [splitFirstNewline] at h
      obtain ⟨rfl, rfl⟩ := h
      rfl
    · rw [splitFirstNewline, if_neg hc] at h
      cases hrec : splitFirstNewline rest with
      | none => rw [hrec] at h; simp at h
      | some p =>
        obtain ⟨a1, b1⟩ := p
        rw [hrec] at h
        simp at h
        obtain ⟨rfl, rfl⟩ := h
        simp [ih a1 b1 hrec]

lemma split_strip_parts {raw a b : List Char}
    (h : splitFirstNewline (strip raw) = some (a, b)) : a ≠ [] ∧ b ≠ [] := by
  have heq : strip raw = a ++ '\n' :: b := splitFirstNewline_eq _ a b h
  have hnl : isSpace '\n' = true := by decide
  constructor
  · rintro rfl
    simp at heq
    have := strip_head heq
    rw [hnl] at this
    exact Bool.noConfusion this
  · rintro rfl
    have := strip_last (s := raw) (a := a) (c := '\n') heq
    rw [hnl] at this
    exact Bool.noConfusion this

lemma content_ne_nil_of_split {raw a b : List Char}
    (h : splitFirstNewline (strip raw) = some (a, b)) : strip b ≠ [] := by
  have heq : strip raw = a ++ '\n' :: b := splitFirstNewline_eq _ a b h
  have hb : b ≠ [] := (split_strip_parts h).2
  have hb2 : b = b.dropLast ++ [b.getLast hb] := (List.dropLast_append_getLast hb).symm
  have hrw : strip raw = (a ++ '\n' :: b.dropLast) ++ [b.getLast hb] := by
    rw [heq]
    conv_lhs => rw [hb2]
    simp
  have hlast : isSpace (b.getLast hb) = false := strip_last hrw
  exact strip_ne_nil (List.getLast_mem hb) hlast

lemma keywordsField_ok_inv {raw k : List (List Char)}
    (h : keywordsField raw = .ok k) :
    k = normalizeKeywords raw ∧ k ≠ [] ∧ 1 ≤ raw.length ∧ raw.length ≤ 10 := by
  unfold keywordsField at h
  split at h
  · cases h
  · next hlen =>
    rw [not_or] at hlen
    unfold validate_keywords at h
    dsimp only at h
    split at h
    · cases h
    · next hne =>
      cases h
      exact ⟨rfl, hne, by omega, by omega⟩

lemma generateMock_title_ne_nil (req : StoryRequest) (pick : Bool) :
    (generateMock req pick).title ≠ [] := by
  intro hcon
  cases pick
  · rw [show (generateMock req false).title
        = str ("Journey to the ") ++ capitalize (req.keywords.headD []) from rfl,
      List.append_eq_nil] at hcon
    exact absurd hcon.1 (by decide)
  · rw [show (generateMock req true).title
        = str ("The Tale of the ") ++ capitalize req.genre from rfl,
      List.append_eq_nil] at hcon
    exact absurd hcon.1 (by decide)

lemma generateMock_content_ne_nil (req : StoryRequest) (pick : Bool) :
    (generateMock req pick).content ≠ [] := by
  intro hcon
  rw [show (generateMock req pick).content
      = str ("Once upon a time in a ") ++ (req.genre ++ (str (" world, there was a ") ++
        (req.keywords.headD [] ++ (str (". It was a ") ++ (req.tone ++ (str (" day. The ") ++
        (req.keywords.headD [] ++ (str (" decided to go on an adventure. Min length requested was ") ++
        ((match req.min_length with
          | none => str ("None")
          | some n => (toString n).data) ++
        str (". And they lived happily ever after.")))))))))) from by
      simp [generateMock, List.append_assoc],
    List.append_eq_nil] at hcon
  exact absurd hcon.1 (by decide)

lemma validateRequest_ok_keywords {raw : RawRequest} {req : StoryRequest}
    (h : validateRequest raw = .ok req) : req.keywords ≠ [] := by
  unfold validateRequest at h
  split at h
  · cases h
  · cases h
  · dsimp only at h
    split at h
    · next k gv m hkw hg hmx =>
      split at h
      · cases h
        exact (keywordsField_ok_inv hkw).2.1
      · cases h
    · cases h

/-- C1: retry behaviour of the AI-backed path, evaluated at the claim's
scenarios. Two transient failures followed by a success give exactly 3 backend
invocations and the parsed successful result, and a backend that only succeeds
from the 4th invocation on still stops after 3 invocations — but after 3
consecutive transient failures the escaping exception is tenacity's
`RetryError` (the decorator leaves `reraise` at its default `False`), not the
`StoryGenerationFailed` domain error the claim promises, and the route maps it
to a generic 500. -/
theorem c1_retry_policy_eval :
    generate_story true oracleTwoFailThenOk true req0
      = (3, .ok ⟨str ("T"), str ("Body"), [str ("ninja")]⟩)
    ∧ generate_story true oracleAllRateLimit true req0
      = (3, .retryError (.rateLimit (str ("429 rate limited"))))
    ∧ generate_story true oracleOkFromFourth true req0
      = (3, .retryError (.rateLimit (str ("429 rate limited"))))
    ∧ (generate_story true oracleAllRateLimit true req0).2.isGenerationError = false
    ∧ routeStatus (generate_story true oracleAllRateLimit true req0).2 = 500 :=
  ⟨rfl, rfl, rfl, rfl, rfl⟩

/-- C2: the conversion of non-retryable exceptions to `StoryGenerationFailed`
works (a `KeyError` raised while generating is wrapped on the first attempt,
carrying the type name as detail), but after transient-failure exhaustion
`generate_story` fails with tenacity's `RetryError` — an exception that is
neither the domain error nor caught anywhere on the path — so the claim that
only `StoryGenerationFailed` escapes is violated by the code. -/
theorem c2_only_domain_error_eval :
    generate_story true oracleAllApiError true req0
      = (3, .retryError (.apiError (str ("upstream 500"))))
    ∧ (generate_story true oracleAllApiError true req0).2.isGenerationError = false
    ∧ routeStatus (generate_story true oracleAllApiError true req0).2 = 500
    ∧ generate_story true (fun _ => .fail (.other (str ("KeyError")) (str ("missing")))) true req0
      = (1, .generationError (str ("Failed to generate story: missing")) (str ("KeyError"))) :=
  ⟨rfl, rfl, rfl, rfl⟩

/-- C3 counterexample: the code removes every occurrence of the `"Title:"`
marker from the first line, not only a leading one: on the raw text
`"A Title: B\nC"` the produced title is `"A  B"`, not the claimed
`"A Title: B"` (which carries no leading marker and should be unchanged). -/
theorem c3_counterexample :
    parseResponse (str ("A Title: B\nC")) = (str ("A  B"), str ("C"))
    ∧ str ("A  B") ≠ str ("A Title: B") :=
  ⟨rfl, by decide⟩

/-- C3 (amended): the parser splits the stripped text on the first newline
into at most two parts; a two-part split always has two non-empty parts, and
then the title is the first part stripped with every `"Title:"` and then every
`"title:"` occurrence removed and stripped again, while the content is the
second part stripped; otherwise the title is the literal `"Untitled Story"`
and the content is the full raw text. The claim's two concrete examples hold. -/
theorem c3_response_parsing :
    (∀ raw a b : List Char, splitFirstNewline (strip raw) = some (a, b) →
      a ≠ [] ∧ b ≠ [] ∧
      parseResponse raw
        = (strip (removeLowerTitleMarker (removeTitleMarker (strip a))), strip b))
    ∧ (∀ raw : List Char, splitFirstNewline (strip raw) = none →
      parseResponse raw = (str ("Untitled Story"), raw))
    ∧ parseResponse (str ("Title: Foo\nBar baz")) = (str ("Foo"), str ("Bar baz"))
    ∧ parseResponse (str ("Just one line"))
        = (str ("Untitled Story"), str ("Just one line")) := by
  refine ⟨?_, ?_, rfl, rfl⟩
  · intro raw a b h
    obtain ⟨ha, hb⟩ := split_strip_parts h
    exact ⟨ha, hb, by simp [parseResponse, h]⟩
  · intro raw h
    simp [parseResponse, h]

/-- Witness for the hypotheses of the amended C3 theorem, at a concrete
two-line response. -/
theorem c3_response_parsing_witness :
    str ("one") ≠ [] ∧ str ("two") ≠ []
    ∧ parseResponse (str ("one\ntwo"))
      = (strip (removeLowerTitleMarker (removeTitleMarker (strip (str ("one"))))),
         strip (str ("two"))) :=
  c3_response_parsing.1 (str ("one\ntwo")) (str ("one")) (str ("two")) rfl

/-- C4: every keyword sequence within the raw count bounds with at least one
non-whitespace entry validates, and the normalized list has no empty and no
duplicate entries; every empty or all-whitespace sequence fails validation. -/
theorem c4_keyword_normalization :
    (∀ kw : List (List Char), 1 ≤ kw.length → kw.length ≤ 10 →
      (∃ k ∈ kw, strip k ≠ []) →
      ∃ norm, keywordsField kw = .ok norm ∧ norm ≠ [] ∧ [] ∉ norm ∧ norm.Nodup)
    ∧ (∀ kw : List (List Char), (∀ k ∈ kw, strip k = []) →
      ∀ norm, keywordsField kw ≠ .ok norm) := by
  constructor
  · rintro kw h1 h10 ⟨k, hk, hks⟩
    have hlen : ¬ (kw.length < 1 ∨ kw.length > 10) := by omega
    have hmem : strip k ∈ normalizeKeywords kw := by
      rw [normalizeKeywords, List.mem_dedup, List.mem_filter]
      exact ⟨List.mem_map.mpr ⟨k, hk, rfl⟩, by simpa using hks⟩
    have hne : normalizeKeywords kw ≠ [] := List.ne_nil_of_mem hmem
    refine ⟨normalizeKeywords kw, ?_, hne, ?_, List.nodup_dedup _⟩
    · unfold keywordsField
      rw [if_neg hlen]
      unfold validate_keywords
      dsimp only
      rw [if_neg hne]
    · intro hmem0
      rw [normalizeKeywords, List.mem_dedup, List.mem_filter] at hmem0
      simpa using hmem0.2
  · intro kw hall norm
    by_cases hc : kw.length < 1 ∨ kw.length > 10
    · unfold keywordsField
      rw [if_pos hc]
      simp
    · have hfil : (kw.map strip).filter (fun k => k ≠ []) = [] := by
        rw [List.filter_eq_nil_iff]
        intro a ha
        obtain ⟨k, hk, rfl⟩ := List.mem_map.mp ha
        simp [hall k hk]
      have hnil : normalizeKeywords kw = [] := by
        rw [normalizeKeywords, hfil]
        rfl
      unfold keywordsField
      rw [if_neg hc]
      unfold validate_keywords
      dsimp only
      rw [if_pos hnil]
      simp

/-- Witness for the hypotheses of the C4 theorem, at the one-entry sequence
`[" ninja "]`. -/
theorem c4_keyword_normalization_witness :
    ∃ norm, keywordsField [str (" ninja ")] = .ok norm
      ∧ norm ≠ [] ∧ [] ∉ norm ∧ norm.Nodup :=
  c4_keyword_normalization.1 [str (" ninja ")] (by decide) (by decide)
    ⟨str (" ninja "), by simp, by decide⟩

/-- C5 counterexample: a raw sequence of 11 identical keywords has a trimmed,
deduplicated set of exactly 1 entry (within 1–10), yet validation rejects it
with the list-length constraint: the 1–10 bound is checked on the raw sequence
before normalization, not on the normalized set. -/
theorem c5_counterexample :
    (normalizeKeywords (List.replicate 11 (str ("cat")))).length = 1
    ∧ keywordsField (List.replicate 11 (str ("cat"))) = .error .constraint :=
  ⟨by decide, by decide⟩

/-- C5 (amended): the 1–10 keyword-count bound is evaluated against the raw
keyword sequence before trimming and deduplication: validation succeeds
exactly when the raw sequence has 1–10 entries and its normalized set is
non-empty, and the normalized list it returns — never re-checked against the
bounds — necessarily has between 1 and raw-many (hence at most 10) entries. -/
theorem c5_keyword_count_bound :
    ∀ kw : List (List Char),
      ((∃ norm, keywordsField kw = .ok norm)
        ↔ (1 ≤ kw.length ∧ kw.length ≤ 10 ∧ normalizeKeywords kw ≠ []))
      ∧ (∀ norm, keywordsField kw = .ok norm →
          norm = normalizeKeywords kw ∧ 1 ≤ norm.length ∧ norm.length ≤ kw.length) := by
  intro kw
  have hinv : ∀ norm, keywordsField kw = .ok norm →
      norm = normalizeKeywords kw ∧ 1 ≤ norm.length ∧ norm.length ≤ kw.length := by
    intro norm hok
    obtain ⟨rfl, hne, -, -⟩ := keywordsField_ok_inv hok
    refine ⟨rfl, ?_, ?_⟩
    · have := List.length_pos.mpr hne
      omega
    · have h1 : (normalizeKeywords kw).length
          ≤ ((kw.map strip).filter (fun k => k ≠ [])).length :=
        (List.dedup_sublist _).length_le
      have h2 : ((kw.map strip).filter (fun k => k ≠ [])).length ≤ (kw.map strip).length :=
        List.length_filter_le _ _
      have h3 : (kw.map strip).length = kw.length := List.length_map _ _
      omega
  refine ⟨⟨?_, ?_⟩, hinv⟩
  · rintro ⟨norm, hok⟩
    obtain ⟨rfl, hne, hl, hu⟩ := keywordsField_ok_inv hok
    exact ⟨hl, hu, hne⟩
  · rintro ⟨hl, hu, hne⟩
    refine ⟨normalizeKeywords kw, ?_⟩
    unfold keywordsField
    rw [if_neg (by omega)]
    unfold validate_keywords
    dsimp only
    rw [if_neg hne]

/-- Witness for the hypotheses of the amended C5 theorem, at a two-entry
duplicated sequence whose normalized set has one entry. -/
theorem c5_keyword_count_bound_witness :
    ∃ norm, keywordsField (List.replicate 2 (str ("cat"))) = .ok norm :=
  (c5_keyword_count_bound (List.replicate 2 (str ("cat")))).1.mpr
    ⟨by decide, by decide, by decide⟩

/-- C6: for both lengths present and inside their individual bounds, the
`min_length` pipeline (range constraints plus `validate_length_range` against
a successfully validated `max_length`) fails exactly when
`min_length > max_length` and otherwise returns the value unchanged. -/
theorem c6_length_range :
    ∀ mn mx : Int, 50 ≤ mn → mn ≤ 1000 → 100 ≤ mx → mx ≤ 2000 →
      ((minLengthField (.ok mx) (some mn) = .error .valueError) ↔ mx < mn)
      ∧ (mn ≤ mx → minLengthField (.ok mx) (some mn) = .ok (some mn)) := by
  intro mn mx h1 h2 h3 h4
  have hc : ¬ (mn < 50 ∨ 1000 < mn) := by omega
  have hnz : mn ≠ 0 := by omega
  have hred : minLengthField (.ok mx) (some mn)
      = if mn ≠ 0 ∧ mx < mn then .error .valueError else .ok (some mn) := by
    unfold minLengthField
    dsimp only
    rw [if_neg hc]
    rfl
  constructor
  · rw [hred]
    constructor
    · intro h
      by_cases hlt : mx < mn
      · exact hlt
      · rw [if_neg (fun hcon => hlt hcon.2)] at h
        cases h
    · intro hlt
      rw [if_pos ⟨hnz, hlt⟩]
  · intro hle
    rw [hred, if_neg (fun hcon => by omega)]

/-- Witness for the hypotheses of the C6 theorem: `min_length = 200` with
`max_length = 150` is rejected, `min_length = 100` with `max_length = 500`
passes. -/
theorem c6_length_range_witness :
    minLengthField (.ok 150) (some 200) = .error .valueError
    ∧ minLengthField (.ok 500) (some 100) = .ok (some 100) :=
  ⟨(c6_length_range 200 150 (by norm_num) (by norm_num) (by norm_num) (by norm_num)).1.mpr
      (by norm_num),
   (c6_length_range 100 500 (by norm_num) (by norm_num) (by norm_num) (by norm_num)).2
      (by norm_num)⟩

/-- A request that pydantic validation can actually produce. -/
def ValidRequest (req : StoryRequest) : Prop := ∃ raw, validateRequest raw = .ok req

/-- C7: for every validated request the mock backend is total (its
`keywords[0]` subscript is in bounds because validation guarantees a non-empty
keyword list), returns a non-empty title and non-empty content, picks the
title from the two capitalized templates, and echoes the request's normalized
keywords unchanged. -/
theorem c7_mock_backend :
    ∀ (req : StoryRequest) (pick : Bool), ValidRequest req →
      req.keywords ≠ []
      ∧ (generateMock req pick).title ≠ []
      ∧ (generateMock req pick).content ≠ []
      ∧ ((generateMock req pick).title = str ("The Tale of the ") ++ capitalize req.genre
         ∨ (generateMock req pick).title
             = str ("Journey to the ") ++ capitalize (req.keywords.headD []))
      ∧ (generateMock req pick).keywords_used = req.keywords := by
  rintro req pick ⟨raw, hraw⟩
  refine ⟨validateRequest_ok_keywords hraw, generateMock_title_ne_nil req pick,
    generateMock_content_ne_nil req pick, ?_, rfl⟩
  cases pick
  · right; rfl
  · left; rfl

/-- Witness for the hypothesis of the C7 theorem at the concrete validated
request `req0`. -/
theorem c7_mock_backend_witness :
    req0.keywords ≠ []
    ∧ (generateMock req0 true).title ≠ []
    ∧ (generateMock req0 true).content ≠ []
    ∧ ((generateMock req0 true).title = str ("The Tale of the ") ++ capitalize req0.genre
       ∨ (generateMock req0 true).title
           = str ("Journey to the ") ++ capitalize (req0.keywords.headD []))
    ∧ (generateMock req0 true).keywords_used = req0.keywords :=
  c7_mock_backend req0 true ⟨rawReq0, rfl⟩

/-- C8 counterexample: the AI-parsed backend can produce a `StoryResult` with
empty content (raw text `""` takes the no-newline branch, whose content is the
raw text unmodified) and one with empty title (raw text `"Title:\nThe body"`,
whose first line vanishes after marker removal and trimming). -/
theorem c8_counterexample :
    generateWithAiBody req0 (.success [])
      = .ok ⟨str ("Untitled Story"), [], [str ("ninja")]⟩
    ∧ generateWithAiBody req0 (.success (str ("Title:\nThe body")))
      = .ok ⟨[], str ("The body"), [str ("ninja")]⟩ :=
  ⟨rfl, rfl⟩

/-- C8 (amended): every mock result has non-empty title and content; for the
AI-parsed result, the content is non-empty whenever the raw generated text is
non-empty (and always in the two-part case), and the title is the non-empty
literal `"Untitled Story"` in the no-newline case — but in the two-part case
the title, and for empty raw text the content, can be empty. -/
theorem c8_nonempty_title_content :
    (∀ (req : StoryRequest) (pick : Bool),
      (generateMock req pick).title ≠ [] ∧ (generateMock req pick).content ≠ [])
    ∧ (∀ raw : List Char, raw ≠ [] → (parseResponse raw).2 ≠ [])
    ∧ (∀ raw a b : List Char, splitFirstNewline (strip raw) = some (a, b) →
        (parseResponse raw).2 ≠ [])
    ∧ (∀ raw : List Char, splitFirstNewline (strip raw) = none →
        (parseResponse raw).1 = str ("Untitled Story")) := by
  refine ⟨fun req pick => ⟨generateMock_title_ne_nil req pick,
    generateMock_content_ne_nil req pick⟩, ?_, ?_, ?_⟩
  · intro raw hraw
    cases hsplit : splitFirstNewline (strip raw) with
    | none => simpa [parseResponse, hsplit] using hraw
    | some p =>
      obtain ⟨a, b⟩ := p
      have := content_ne_nil_of_split hsplit
      simpa [parseResponse, hsplit] using this
  · intro raw a b h
    have := content_ne_nil_of_split h
    simpa [parseResponse, h] using this
  · intro raw h
    simp [parseResponse, h]

/-- Witness for the hypotheses of the amended C8 theorem at concrete raw
texts. -/
theorem c8_nonempty_title_content_witness :
    (parseResponse (str ("x"))).2 ≠ []
    ∧ (parseResponse (str ("x\ny"))).2 ≠ []
    ∧ (parseResponse (str ("x"))).1 = str ("Untitled Story") :=
  ⟨c8_nonempty_title_content.2.1 (str ("x")) (by decide),
   c8_nonempty_title_content.2.2.1 (str ("x\ny")) (str ("x")) (str ("y")) rfl,
   c8_nonempty_title_content.2.2.2 (str ("x")) rfl⟩

/-- C9 counterexample: a `StoryGenerationFailed` wrapping a `ValueError` with
message `"boom"` is surfaced with payload detail
`"Failed to generate story: boom"` — the original failure's message embedded
verbatim, so the surfaced message is not redacted — and that payload detail is
the error message, not the diagnostic category name `"ValueError"` the claim
says the outcome carries. -/
theorem c9_counterexample :
    generateWithAiBody req0 (.fail (.other (str ("ValueError")) (str ("boom"))))
      = .generationError (str ("Failed to generate story: ") ++ str ("boom"))
          (str ("ValueError"))
    ∧ (story_generation_exception_handler
        (str ("Failed to generate story: ") ++ str ("boom")) (str ("ValueError"))
        (str ("/api/v1/generate"))).1.detail
      = str ("Failed to generate story: ") ++ str ("boom")
    ∧ (story_generation_exception_handler
        (str ("Failed to generate story: ") ++ str ("boom")) (str ("ValueError"))
        (str ("/api/v1/generate"))).1.detail ≠ str ("ValueError") :=
  ⟨rfl, rfl, by decide⟩

/-- C9 (amended): a non-transient failure is wrapped into
`StoryGenerationFailed` carrying the message `"Failed to generate story: " +
str(e)` and, as diagnostic detail label, the original failure's type name; the
handler surfaces it as a 503 service-unavailable problem response titled
`"Story Generation Failed"` whose payload detail is the (unredacted) message
and which omits the label, while the label is written to the error log
together with the message. -/
theorem c9_failure_surfacing :
    ∀ (req : StoryRequest) (ename emsg path : List Char),
      generateWithAiBody req (.fail (.other ename emsg))
        = .generationError (str ("Failed to generate story: ") ++ emsg) ename
      ∧ story_generation_exception_handler
          (str ("Failed to generate story: ") ++ emsg) ename path
        = (⟨str ("driver:error"), str ("Story Generation Failed"), 503,
            str ("Failed to generate story: ") ++ emsg, path⟩,
           ⟨str ("story_generation_error"),
            str ("Failed to generate story: ") ++ emsg, ename⟩)
      ∧ routeStatus (.generationError (str ("Failed to generate story: ") ++ emsg) ename)
          = 503 := by
  intro req ename emsg path
  exact ⟨rfl, rfl, rfl⟩

/-- C10: a `tone` field supplied explicitly as null reaches `v.lower()` in
`validate_tone` with no `None` check, so model validation does not end in the
normal per-field validation failure: it raises `AttributeError` from inside
the validator. -/
theorem c10_tone_null_attribute_error :
    ∀ raw : RawRequest, raw.tone = some none →
      validate_tone none = .attributeError
      ∧ validateRequest raw = .attributeError
      ∧ validateRequest raw ≠ .validationError := by
  intro raw h
  have hv : validateRequest raw = .attributeError := by
    unfold validateRequest
    rw [h]
    rfl
  refine ⟨rfl, hv, ?_⟩
  rw [hv]
  simp

/-- A payload whose `tone` is an explicit null. -/
def rawToneNull : RawRequest :=
  ⟨[str ("ninja")], str ("fantasy"), some none, none, none⟩

/-- Witness for the hypothesis of the C10 theorem at a concrete payload with
an explicit null tone. -/
theorem c10_tone_null_attribute_error_witness :
    validate_tone none = .attributeError
    ∧ validateRequest rawToneNull = .attributeError
    ∧ validateRequest rawToneNull ≠ .validationError :=
  c10_tone_null_attribute_error rawToneNull rfl

end Jiraiya
